import Mathlib

/-!
Shallow embedding of the core of the safe-data-tool repository (src/app.py):
the risk scorer `calculate_risk`, the noise transform `add_laplace_noise`,
and the generalization transform `generalise_age`, together with an explicit
heap/RNG process model for the mutation and random-state claims.

Modelling conventions:
* A pandas cell value is `Val`: a numeric scalar (modelled as a rational),
  a string, or a missing value (`na`, pandas NaN/NA).
* A DataFrame is a `Table`: a list of column names plus rows given as
  association lists from column name to value.
* pandas `merge(..., on=keys, how="inner")` matches two rows when their key
  tuples are equal, where (documented, long-standing pandas behaviour) a NaN
  key equals a NaN key; the count of output rows is the number of matching
  row pairs.  `merge` with an empty key list raises (embedded as the error
  `AppError.mergeEmptyOn`), and raises when a key column is numeric-typed
  in one non-empty table and object-typed in the other (embedded as
  `AppError.mergeDtype`).
* Python exceptions become `Except AppError` results.
* The numpy global random generator becomes an explicit state (`Nat`)
  threaded through calls, with the sampling functions abstracted as an
  arbitrary `NpRandom` structure: the floating-point content of the Laplace
  sampler is irrelevant to every claim, only determinism and state flow
  matter, so theorems quantify over all `NpRandom` instances.
-/

/-- A scalar cell value of a pandas column: numeric (floats and ints modelled
as rationals), string, or missing (NaN/NA). -/
inductive Val where
  | num (q : ℚ)
  | str (s : String)
  | na
deriving DecidableEq, Repr

/-- A row: an association list from column name to value. -/
abbrev Row := List (String × Val)

/-- Value of a row at a column; `na` when the column is absent from the row
(unreachable for well-formed tables, whose rows carry every column). -/
def Row.getV (r : Row) (c : String) : Val :=
  (((r.find? (fun p => p.1 == c)).map Prod.snd)).getD Val.na

/-- Assignment `df[c] = v` restricted to one row: replace the value stored at
column `c`. -/
def Row.setV (r : Row) (c : String) (v : Val) : Row :=
  r.map (fun p => if p.1 == c then (c, v) else p)

/-- A pandas DataFrame: named columns plus rows. -/
structure Table where
  cols : List String
  rows : List Row
deriving DecidableEq, Repr

/-- The empty DataFrame (used as the default content of unallocated heap
cells in the process model). -/
def emptyTable : Table := ⟨[], []⟩

/-- Errors raised by the embedded functions, one constructor per `raise`
site or raising library call reachable from the three core functions. -/
inductive AppError where
  /-- `KeyError` raised at src/app.py line 37: quasi-identifier columns
  missing; carries the list missing from microdata and the list missing from
  the reference table, in that order, as the message does. -/
  | missingColumn (inMicro inTrue : List String)
  /-- pandas `merge` raises when the `on` key list is empty. -/
  | mergeEmptyOn
  /-- `ValueError` raised by `merge` when a join-key column is numeric in
  one table and object (string-holding) in the other, both tables
  non-empty. -/
  | mergeDtype
  /-- `ValueError` raised at src/app.py line 17: the selected column is not
  numeric; carries the column name, as the message does. -/
  | nonNumeric (col : String)
  /-- `KeyError` from `df[column]` when the column is absent. -/
  | keyError (col : String)
  /-- `astype(int)` raises on non-finite values: the column holds NaN. -/
  | intCastNA
deriving DecidableEq, Repr

instance {ε α : Type _} [DecidableEq ε] [DecidableEq α] : DecidableEq (Except ε α) := fun x y =>
  match x, y with
  | .ok a, .ok b => if h : a = b then .isTrue (by rw [h]) else .isFalse (by simp [h])
  | .error a, .error b => if h : a = b then .isTrue (by rw [h]) else .isFalse (by simp [h])
  | .ok _, .error _ => .isFalse (by simp)
  | .error _, .ok _ => .isFalse (by simp)

/-- Whether a column name occurring in a row carries a numeric value for the
purposes of the pandas dtype test `pd.api.types.is_numeric_dtype`: numeric
scalars and NaN both live in numeric (float) columns, strings force an
object dtype. -/
def Val.isNum : Val → Bool
  | .num _ => true
  | .na => true
  | .str _ => false

/-- `pd.api.types.is_numeric_dtype(df[c])` for a CSV-parsed table: the
column holds only numeric or missing values, and is non-empty (pandas parses
an empty CSV column with dtype object, which is not numeric). -/
def isNumericCol (df : Table) (c : String) : Bool :=
  !df.rows.isEmpty && df.rows.all (fun r => (Row.getV r c).isNum)

/-- pandas merge-key equality for one quasi-identifier tuple: all selected
columns hold equal values, where `merge` treats NaN as equal to NaN. -/
def rowsMatch (qc : List String) (r s : Row) : Bool :=
  qc.all (fun c => Row.getV r c == Row.getV s c)

/-- Number of rows of `microdata.merge(true_ids, on=qc, how="inner")`: every
(micro row, reference row) pair agreeing on the full key tuple counts. -/
def matchCount (micro tr : Table) (qc : List String) : Nat :=
  (micro.rows.map (fun r => (tr.rows.filter (fun s => rowsMatch qc r s)).length)).sum

/-- The merge-key dtype compatibility check of pandas
(`_maybe_coerce_merge_keys`): merging a numeric-dtype key column against an
object-dtype one raises `ValueError`.  The check is skipped per key when one
side's column is empty (so an empty table merges against anything), and for
CSV-parsed tables an object key column holds strings, whose inferred type
can never agree with a numeric column's, so a clash is exactly: both tables
non-empty and some key column numeric on one side only. -/
def mergeKeyDtypeClash (micro tr : Table) (qc : List String) : Bool :=
  !micro.rows.isEmpty && !tr.rows.isEmpty &&
    qc.any (fun c => isNumericCol micro c != isNumericCol tr c)

/-- Embedding of `calculate_risk` (src/app.py lines 33-41): check both
missing-column lists and raise `KeyError` carrying both; inner-merge on the
quasi-identifier columns (raising when the key list is empty and when the
key dtypes are incompatible, as pandas does); return the merged row count
and `(match_count / len(microdata)) * 100` with `0.0` for empty microdata. -/
def calculate_risk (microdata true_ids : Table) (quasi_columns : List String) :
    Except AppError (Nat × ℚ) :=
  let missing_in_micro := quasi_columns.filter (fun c => !(microdata.cols.contains c))
  let missing_in_true := quasi_columns.filter (fun c => !(true_ids.cols.contains c))
  if missing_in_micro ≠ [] ∨ missing_in_true ≠ [] then
    .error (.missingColumn missing_in_micro missing_in_true)
  else if quasi_columns = [] then
    .error .mergeEmptyOn
  else if mergeKeyDtypeClash microdata true_ids quasi_columns then
    .error .mergeDtype
  else
    let match_count := matchCount microdata true_ids quasi_columns
    let risk_percent : ℚ :=
      if microdata.rows.length > 0 then
        ((match_count : ℚ) / (microdata.rows.length : ℚ)) * 100
      else 0
    .ok (match_count, risk_percent)

example : calculate_risk ⟨["k"], [[("k", Val.num 1)]]⟩ ⟨["k"], [[("k", Val.num 1)]]⟩ ["k"]
    = .ok (1, 100) := by
  simp [calculate_risk, matchCount, rowsMatch, Row.getV, mergeKeyDtypeClash, isNumericCol,
    Val.isNum]

example : calculate_risk ⟨["b"], []⟩ ⟨["a", "b"], []⟩ ["a", "b"]
    = .error (.missingColumn ["a"] []) := by
  simp [calculate_risk]

example : calculate_risk ⟨["k"], [[("k", Val.num 1)]]⟩ ⟨["k"], [[("k", Val.str "1")]]⟩ ["k"]
    = .error .mergeDtype := by decide

/-! ## Noise injection -/

/-- Model of the `numpy.random` module: `seedFn` is the state installed by
`np.random.seed(s)`, `next` the state transition performed by drawing one
sample, and `unitLaplace` the unit-scale Laplace sample read off the current
state.  The floating-point content of the sampler is irrelevant to every
claim, so the three functions are arbitrary; theorems about determinism and
state flow quantify over all instances. -/
structure NpRandom where
  seedFn : Nat → Nat
  next : Nat → Nat
  unitLaplace : Nat → ℚ

/-- `np.random.laplace(loc=0, scale=scale, size=n)` from global state `st`:
the list of `n` samples (each `scale` times a unit sample, since a Laplace
variate with scale `b` is `b` times a unit one) and the advanced state. -/
def laplaceDraws (R : NpRandom) (scale : ℚ) : Nat → Nat → List ℚ × Nat
  | 0, st => ([], st)
  | n + 1, st =>
    let rest := laplaceDraws R scale n (R.next st)
    (scale * R.unitLaplace st :: rest.1, rest.2)

/-- numpy rounding (`.round()`): round to the nearest integer, ties to even. -/
def roundHalfEven (q : ℚ) : ℤ :=
  let f := ⌊q⌋
  if q - f < 1 / 2 then f
  else if q - f > 1 / 2 then f + 1
  else if f % 2 = 0 then f else f + 1

/-- The numeric content of a cell (only read under a guard that the cell is
numeric and not missing). -/
def Val.asRat : Val → ℚ
  | .num q => q
  | _ => 0

/-- Lines 16-18 of src/app.py, after the noise has been drawn: the dtype
check raising `ValueError` (preceded by the `KeyError` that `df[column]`
itself raises when the column is absent), then
`df[column] = (df[column] + noise).round().astype(int)` — which raises when
the column holds NaN, since `astype(int)` rejects non-finite values. -/
def noiseBody (df : Table) (column : String) (noise : List ℚ) :
    Except AppError Table :=
  if ¬ column ∈ df.cols then .error (.keyError column)
  else if ¬ isNumericCol df column then .error (.nonNumeric column)
  else if df.rows.any (fun r => Row.getV r column == Val.na) then .error .intCastNA
  else .ok ⟨df.cols,
    (df.rows.zip noise).map (fun p =>
      Row.setV p.1 column (Val.num ((roundHalfEven ((Row.getV p.1 column).asRat + p.2) : ℤ) : ℚ)))⟩

/-- The numpy global state right after the optional
`np.random.seed(random_state)` call at src/app.py lines 13-14: the seeded
state when a seed is provided, the ambient global state otherwise. -/
def seededState (R : NpRandom) (random_state : Option Nat) (g : Nat) : Nat :=
  match random_state with
  | some s => R.seedFn s
  | none => g

/-- Embedding of `add_laplace_noise` (src/app.py lines 11-19) over the
value of the input frame (`df.copy()` gives the body its own value) and an
explicit numpy global state `g`: seed the global generator when
`random_state` is provided, draw `len(df)` Laplace samples (advancing the
global state), then run the dtype check and the noised integer assignment.
Returns the result together with the global state left behind. -/
def add_laplace_noise (R : NpRandom) (df : Table) (column : String) (scale : ℚ)
    (random_state : Option Nat) (g : Nat) : Except AppError Table × Nat :=
  let drawn := laplaceDraws R scale df.rows.length (seededState R random_state g)
  (noiseBody df column drawn.1, drawn.2)

/-! ## Age generalization -/

/-- `pd.cut(v, bins=[0,20,30,40,50,60,70,120], labels=[...], right=False)`
for one numeric value: the bin with `bins[i] <= v < bins[i+1]` (left-closed,
right-open since `right=False`), `none` (NaN output) outside `[0, 120)`. -/
def bucketAge (v : ℚ) : Option String :=
  if 0 ≤ v ∧ v < 20 then some "<20"
  else if 20 ≤ v ∧ v < 30 then some "20-29"
  else if 30 ≤ v ∧ v < 40 then some "30-39"
  else if 40 ≤ v ∧ v < 50 then some "40-49"
  else if 50 ≤ v ∧ v < 60 then some "50-59"
  else if 60 ≤ v ∧ v < 70 then some "60-69"
  else if 70 ≤ v ∧ v < 120 then some "70+"
  else none

/-- `pd.cut` on one cell of a numeric column: a numeric value becomes its
bucket label (or NaN when out of range), a NaN stays NaN.  The string case
is unreachable: `pd.cut` raises on a non-numeric column, which `tryCut`
reports as `none` before any cell is examined. -/
def cutVal : Val → Val
  | .num v => match bucketAge v with
    | some l => .str l
    | none => .na
  | .na => .na
  | .str s => .str s

/-- `pd.cut(df[c], bins, labels, right=False)` applied to the whole column:
fails (pandas raises `TypeError`) when the column is not numeric, otherwise
rebuckets every cell. -/
def tryCut (df : Table) (c : String) : Option Table :=
  if isNumericCol df c then
    some ⟨df.cols, df.rows.map (fun r => Row.setV r c (cutVal (Row.getV r c)))⟩
  else none

/-- Embedding of `generalise_age` (src/app.py lines 21-31) over the value of
the frame: return the (copied) frame unchanged when the column is absent;
otherwise attempt the `pd.cut` bucketing, and — the bare
`try ... except Exception: pass` — fall back to the unchanged frame when it
fails.  Total: no error can escape. -/
def generalise_age (df : Table) (column : String) : Table :=
  if column ∈ df.cols then
    match tryCut df column with
    | some t => t
    | none => df
  else df

example : generalise_age ⟨["age"], [[("age", Val.num 20)]]⟩ "age"
    = ⟨["age"], [[("age", Val.str "20-29")]]⟩ := by
  simp [generalise_age, tryCut, isNumericCol, Row.getV, Val.isNum, cutVal, bucketAge, Row.setV]
  norm_num [bucketAge]

/-! ## Process model: the Python heap and the numpy global generator

`PyState` carries the heap of DataFrame objects (indexed by reference) and
the numpy global generator state.  `df.copy()` appends a fresh cell holding
the same value; the assignment `df[column] = ...` becomes a write to the
cell being built.  The `_imp` functions are the three core functions at this
level; the value-level functions above describe the value they compute. -/

structure PyState where
  heap : List Table
  rng : Nat
deriving Repr

/-- `add_laplace_noise` at the process level: read the frame at `ref`, copy
it into a fresh cell, run the body on the copy (seeding and advancing the
global generator), and on success store the transformed frame in the fresh
cell and return its reference. -/
def add_laplace_noise_imp (R : NpRandom) (s : PyState) (ref : Nat)
    (column : String) (scale : ℚ) (random_state : Option Nat) :
    PyState × Except AppError Nat :=
  let df := s.heap.getD ref emptyTable
  let newRef := s.heap.length
  let h1 := s.heap ++ [df]
  match add_laplace_noise R df column scale random_state s.rng with
  | (.error e, g2) => (⟨h1, g2⟩, .error e)
  | (.ok t, g2) => (⟨h1.set newRef t, g2⟩, .ok newRef)

/-- `generalise_age` at the process level: copy the frame at `ref` into a
fresh cell, and overwrite that cell with the bucketed column when `pd.cut`
succeeds; in the absent-column and swallowed-failure branches the fresh copy
is returned untouched.  Always returns a reference (never an error). -/
def generalise_age_imp (s : PyState) (ref : Nat) (column : String) :
    PyState × Nat :=
  let df := s.heap.getD ref emptyTable
  let newRef := s.heap.length
  let h1 := s.heap ++ [df]
  if column ∈ df.cols then
    match tryCut df column with
    | some t => (⟨h1.set newRef t, s.rng⟩, newRef)
    | none => (⟨h1, s.rng⟩, newRef)
  else (⟨h1, s.rng⟩, newRef)

/-- `calculate_risk` at the process level: reads the two frames and computes
the pure result; the merge allocates no cell the program retains, mutates
nothing, and leaves the generator alone. -/
def calculate_risk_imp (s : PyState) (r1 r2 : Nat) (qc : List String) :
    PyState × Except AppError (Nat × ℚ) :=
  (s, calculate_risk (s.heap.getD r1 emptyTable) (s.heap.getD r2 emptyTable) qc)

/-- A concrete `NpRandom` instance used for evaluating the embedding on
closed inputs: state `st` yields unit sample `st` and steps to `st + 1`;
seeding with `s` installs state `s`. -/
def Rlin : NpRandom := ⟨fun s => s, fun st => st + 1, fun st => (st : ℚ)⟩

/-! ## Generic list helpers -/

theorem getD_append_lt {α : Type _} (l l' : List α) (d : α) :
    ∀ i, i < l.length → (l ++ l').getD i d = l.getD i d := by
  induction l with
  | nil => intro i h; simp at h
  | cons a t ih =>
    intro i h
    cases i with
    | zero => rfl
    | succ j => simpa using ih j (by simpa using h)

theorem getD_set_ne {α : Type _} (t : α) (d : α) :
    ∀ (l : List α) (j i : Nat), i ≠ j → (l.set j t).getD i d = l.getD i d := by
  intro l
  induction l with
  | nil => intro j i _; rfl
  | cons a tl ih =>
    intro j i hij
    cases j with
    | zero =>
      cases i with
      | zero => exact absurd rfl hij
      | succ k => rfl
    | succ j' =>
      cases i with
      | zero => rfl
      | succ k => simpa using ih j' k (by omega)

theorem filter_not_contains_nil (qc cols : List String)
    (h : ∀ c ∈ qc, c ∈ cols) :
    qc.filter (fun c => !(cols.contains c)) = [] := by
  rw [List.filter_eq_nil_iff]
  intro c hc
  simp [h c hc]

/-! ## Claim theorems -/

/-- Claim C3, counterexample: with both tables sharing column k and one row
each, calling the scorer with the empty quasi-identifier set raises (the
merge rejects an empty key list) instead of degenerating to a cross-match. -/
theorem calculate_risk_empty_qc_raises :
    calculate_risk ⟨["k"], [[("k", Val.num 1)]]⟩ ⟨["k"], [[("k", Val.num 1)]]⟩ []
      = .error .mergeEmptyOn := by
  simp [calculate_risk]

/-- Claim C3 (amended): for every pair of tables, score on the empty
quasi-identifier set raises the merge error — the empty set is rejected, not
handled as a full cross-match. -/
theorem calculate_risk_empty_qc (micro tr : Table) :
    calculate_risk micro tr [] = .error .mergeEmptyOn := by
  simp [calculate_risk]

/-- Claim C1, counterexample: empty microdata with the empty quasi-identifier
set (which satisfies the column-existence precondition vacuously) raises
instead of returning (0, 0.0). -/
theorem calculate_risk_empty_micro_raises :
    calculate_risk ⟨[], []⟩ ⟨[], []⟩ [] = .error .mergeEmptyOn := by
  simp [calculate_risk]

/-- Claim C1 (amended): for tables and a NON-EMPTY quasi-identifier set
satisfying the column-existence precondition, whose key columns are
dtype-compatible between the two tables (no numeric-against-object key, the
pandas merge `ValueError`), score returns risk_percent equal to
100 * match_count / len(microdata); and when microdata is empty it returns
(0, 0.0) without raising — pandas skips the dtype check when one side is
empty, so the clash hypothesis holds vacuously there. -/
theorem calculate_risk_formula (micro tr : Table) (qc : List String)
    (hcols : ∀ c ∈ qc, c ∈ micro.cols ∧ c ∈ tr.cols) (hne : qc ≠ [])
    (hdt : mergeKeyDtypeClash micro tr qc = false) :
    calculate_risk micro tr qc =
      .ok (matchCount micro tr qc,
        if micro.rows.length = 0 then 0
        else 100 * (matchCount micro tr qc : ℚ) / (micro.rows.length : ℚ)) ∧
    (micro.rows = [] → calculate_risk micro tr qc = .ok (0, 0)) := by
  have h1 : qc.filter (fun c => !(micro.cols.contains c)) = [] :=
    filter_not_contains_nil qc micro.cols (fun c hc => (hcols c hc).1)
  have h2 : qc.filter (fun c => !(tr.cols.contains c)) = [] :=
    filter_not_contains_nil qc tr.cols (fun c hc => (hcols c hc).2)
  have hmain : calculate_risk micro tr qc =
      .ok (matchCount micro tr qc,
        if micro.rows.length = 0 then 0
        else 100 * (matchCount micro tr qc : ℚ) / (micro.rows.length : ℚ)) := by
    simp only [calculate_risk, h1, h2]
    rw [if_neg (by simp), if_neg hne, if_neg (by simp [hdt])]
    rcases Nat.eq_zero_or_pos micro.rows.length with hz | hp
    · simp [hz]
    · rw [if_pos hp, if_neg (by omega)]
      ring_nf
  refine ⟨hmain, fun hrows => ?_⟩
  rw [hmain]
  have hz : micro.rows.length = 0 := by simp [hrows]
  have hm : matchCount micro tr qc = 0 := by simp [matchCount, hrows]
  simp [hz, hm]

/-- Claim C1, witness: a concrete instance of the amended theorem with one
shared column, no rows (so no dtype clash), and a non-empty quasi set gives
(0, 0.0). -/
theorem calculate_risk_formula_w :
    (∀ c ∈ ["k"], c ∈ (⟨["k"], []⟩ : Table).cols ∧ c ∈ (⟨["k"], []⟩ : Table).cols) ∧
    (["k"] ≠ ([] : List String)) ∧
    (mergeKeyDtypeClash ⟨["k"], []⟩ ⟨["k"], []⟩ ["k"] = false) ∧
    calculate_risk ⟨["k"], []⟩ ⟨["k"], []⟩ ["k"] = .ok (0, 0) :=
  ⟨by decide, by decide, by decide,
    (calculate_risk_formula ⟨["k"], []⟩ ⟨["k"], []⟩ ["k"] (by decide) (by decide)
      (by decide)).2 rfl⟩

/-- Two merged rows agree on every key column (merge-key equality is value
equality with NaN equal to NaN). -/
theorem rowsMatch_getV (qc : List String) (r s : Row) (c : String)
    (h : rowsMatch qc r s = true) (hc : c ∈ qc) :
    Row.getV r c = Row.getV s c := by
  have := List.all_eq_true.mp h c hc
  simpa using this

/-- Claim C2, counterexample: one microdata row and one reference row, both
with a missing value in the only quasi-identifier column, DO match — pandas
merge treats NaN keys as equal — so the row contributes and risk is 100%. -/
theorem calculate_risk_na_matches :
    calculate_risk ⟨["k"], [[("k", Val.na)]]⟩ ⟨["k"], [[("k", Val.na)]]⟩ ["k"]
      = .ok (1, 100) := by
  simp [calculate_risk, matchCount, rowsMatch, Row.getV, mergeKeyDtypeClash, isNumericCol,
    Val.isNum]

/-- Claim C2 (amended): a missing quasi-identifier value matches only a
missing value: whenever the reference table has no missing values in some
selected column, microdata rows missing that column contribute nothing —
dropping them does not change match_count.  (When both sides are missing the
rows do match; see the counterexample.) -/
theorem matchCount_missing_filter (micro tr : Table) (qc : List String) (c : String)
    (hc : c ∈ qc) (htr : ∀ s ∈ tr.rows, Row.getV s c ≠ Val.na) :
    matchCount micro tr qc =
      matchCount ⟨micro.cols, micro.rows.filter (fun r => !(Row.getV r c == Val.na))⟩ tr qc := by
  have key : ∀ r : Row, Row.getV r c = Val.na →
      (tr.rows.filter (fun s => rowsMatch qc r s)).length = 0 := by
    intro r hr
    rw [List.length_eq_zero, List.filter_eq_nil_iff]
    intro s hs hmatch
    exact htr s hs (by rw [← rowsMatch_getV qc r s c hmatch hc, hr])
  suffices h : ∀ l : List Row,
      (l.map (fun r => (tr.rows.filter (fun s => rowsMatch qc r s)).length)).sum
        = ((l.filter (fun r => !(Row.getV r c == Val.na))).map
            (fun r => (tr.rows.filter (fun s => rowsMatch qc r s)).length)).sum by
    exact h micro.rows
  intro l
  induction l with
  | nil => rfl
  | cons r t ih =>
    by_cases hr : Row.getV r c = Val.na
    · have hp : (!(Row.getV r c == Val.na)) = false := by simp [hr]
      simp [List.filter_cons, hp, key r hr, ih]
    · have hp : (!(Row.getV r c == Val.na)) = true := by simp [hr]
      simp [List.filter_cons, hp, ih]

/-- Claim C2, witness: with a reference table free of missing values in k,
dropping the microdata row that is missing k leaves match_count unchanged. -/
theorem matchCount_missing_filter_w :
    ("k" ∈ ["k"]) ∧
    (∀ s ∈ (⟨["k"], [[("k", Val.num 1)]]⟩ : Table).rows, Row.getV s "k" ≠ Val.na) ∧
    matchCount ⟨["k"], [[("k", Val.na)], [("k", Val.num 1)]]⟩ ⟨["k"], [[("k", Val.num 1)]]⟩ ["k"]
      = matchCount ⟨["k"], ([[("k", Val.na)], [("k", Val.num 1)]] : List Row).filter
            (fun r => !(Row.getV r "k" == Val.na))⟩
          ⟨["k"], [[("k", Val.num 1)]]⟩ ["k"] :=
  ⟨by decide, by decide,
    matchCount_missing_filter ⟨["k"], [[("k", Val.na)], [("k", Val.num 1)]]⟩
      ⟨["k"], [[("k", Val.num 1)]]⟩ ["k"] "k" (by decide) (by decide)⟩

/-- Claim C4: score raises the missing-column error exactly when some
quasi-identifier column is absent from microdata or from the reference
table, and the error carries both lists of absent columns (each list the
quasi columns absent from the respective table, possibly empty). -/
theorem calculate_risk_missing_iff (micro tr : Table) (qc : List String) :
    ((∃ c ∈ qc, c ∉ micro.cols ∨ c ∉ tr.cols) →
      calculate_risk micro tr qc =
        .error (.missingColumn (qc.filter (fun c => !(micro.cols.contains c)))
          (qc.filter (fun c => !(tr.cols.contains c))))) ∧
    ((∀ c ∈ qc, c ∈ micro.cols ∧ c ∈ tr.cols) →
      ∀ a b, calculate_risk micro tr qc ≠ .error (.missingColumn a b)) := by
  constructor
  · rintro ⟨c, hc, hmiss⟩
    have hcond : qc.filter (fun c => !(micro.cols.contains c)) ≠ [] ∨
        qc.filter (fun c => !(tr.cols.contains c)) ≠ [] := by
      rcases hmiss with h | h
      · left
        intro hnil
        have := List.filter_eq_nil_iff.mp hnil c hc
        simp at this
        exact h this
      · right
        intro hnil
        have := List.filter_eq_nil_iff.mp hnil c hc
        simp at this
        exact h this
    simp only [calculate_risk]
    rw [if_pos hcond]
  · intro hall a b
    have h1 := filter_not_contains_nil qc micro.cols (fun c hc => (hall c hc).1)
    have h2 := filter_not_contains_nil qc tr.cols (fun c hc => (hall c hc).2)
    simp only [calculate_risk, h1, h2]
    rw [if_neg (by simp)]
    by_cases hq : qc = []
    · rw [if_pos hq]
      simp
    · rw [if_neg hq]
      by_cases hdt : mergeKeyDtypeClash micro tr qc = true
      · rw [if_pos hdt]
        simp
      · rw [if_neg hdt]
        simp

/-- Claim C4, witness: with column a absent from microdata only, the raised
error carries the pair of lists ([a], []) — the second list empty. -/
theorem calculate_risk_missing_iff_w :
    (∃ c ∈ ["a", "b"], c ∉ (⟨["b"], []⟩ : Table).cols ∨ c ∉ (⟨["a", "b"], []⟩ : Table).cols) ∧
    calculate_risk ⟨["b"], []⟩ ⟨["a", "b"], []⟩ ["a", "b"]
      = .error (.missingColumn ["a"] []) := by
  refine ⟨⟨"a", by decide, by decide⟩, ?_⟩
  have h := (calculate_risk_missing_iff ⟨["b"], []⟩ ⟨["a", "b"], []⟩ ["a", "b"]).1
    ⟨"a", by decide, by decide⟩
  exact h.trans (by decide)

/-- Frame property of noise injection at the process level: every heap cell
that existed before the call — in particular the input frame — is untouched,
on success and on error alike, and a success returns the freshly allocated
cell. -/
theorem add_imp_frame (R : NpRandom) (s : PyState) (ref : Nat) (column : String)
    (scale : ℚ) (rs : Option Nat) :
    (∀ i, i < s.heap.length →
      (add_laplace_noise_imp R s ref column scale rs).1.heap.getD i emptyTable
        = s.heap.getD i emptyTable) ∧
    (∀ t', (add_laplace_noise_imp R s ref column scale rs).2 = .ok t' →
      t' = s.heap.length) := by
  unfold add_laplace_noise_imp
  dsimp only
  rcases hres : add_laplace_noise R (s.heap.getD ref emptyTable) column scale rs s.rng
    with ⟨res, g2⟩
  cases res with
  | error e =>
    refine ⟨fun i hi => ?_, fun t' ht => ?_⟩
    · exact getD_append_lt s.heap [s.heap.getD ref emptyTable] emptyTable i hi
    · exact absurd ht (by simp)
  | ok t =>
    refine ⟨fun i hi => ?_, fun t' ht => ?_⟩
    · show ((s.heap ++ [s.heap.getD ref emptyTable]).set s.heap.length t).getD i emptyTable
        = s.heap.getD i emptyTable
      rw [getD_set_ne t emptyTable (s.heap ++ [s.heap.getD ref emptyTable])
        s.heap.length i (by omega)]
      exact getD_append_lt s.heap [s.heap.getD ref emptyTable] emptyTable i hi
    · exact (Except.ok.inj ht).symm

/-- Frame property of age generalization at the process level: pre-existing
heap cells are untouched and the returned reference is the fresh cell. -/
theorem gen_imp_frame (s : PyState) (ref : Nat) (c : String) :
    (∀ i, i < s.heap.length →
      (generalise_age_imp s ref c).1.heap.getD i emptyTable = s.heap.getD i emptyTable) ∧
    (generalise_age_imp s ref c).2 = s.heap.length := by
  unfold generalise_age_imp
  dsimp only
  by_cases hc : c ∈ (s.heap.getD ref emptyTable).cols
  · rw [if_pos hc]
    rcases hcut : tryCut (s.heap.getD ref emptyTable) c with _ | t
    · exact ⟨fun i hi =>
        getD_append_lt s.heap [s.heap.getD ref emptyTable] emptyTable i hi, rfl⟩
    · refine ⟨fun i hi => ?_, rfl⟩
      show ((s.heap ++ [s.heap.getD ref emptyTable]).set s.heap.length t).getD i emptyTable
        = s.heap.getD i emptyTable
      rw [getD_set_ne t emptyTable (s.heap ++ [s.heap.getD ref emptyTable])
        s.heap.length i (by omega)]
      exact getD_append_lt s.heap [s.heap.getD ref emptyTable] emptyTable i hi
  · rw [if_neg hc]
    exact ⟨fun i hi =>
      getD_append_lt s.heap [s.heap.getD ref emptyTable] emptyTable i hi, rfl⟩

/-- Claim C5, counterexample: a column of numeric dtype (a lone NaN cell —
pandas parses it as float64) makes `add_laplace_noise` raise from
`astype(int)`, against the claim that numeric columns never raise. -/
theorem add_noise_na_raises :
    isNumericCol ⟨["x"], [[("x", Val.na)]]⟩ "x" = true ∧
    (add_laplace_noise Rlin ⟨["x"], [[("x", Val.na)]]⟩ "x" 1 (some 0) 0).1
      = .error .intCastNA :=
  ⟨by decide, rfl⟩

/-- Claim C5 (amended): `add_laplace_noise` raises the non-numeric error,
naming the column, exactly when the column exists and is not numeric; a
numeric column FREE OF MISSING VALUES yields, without raising, the frame
with noise added and each cell rounded to the nearest integer and stored as
an integer-valued cell; and no call — error or success — mutates any
pre-existing frame (a numeric column containing missing values instead
raises the integer-cast error, see the counterexample). -/
theorem add_laplace_noise_spec (R : NpRandom) (df : Table) (column : String)
    (scale : ℚ) (rs : Option Nat) (g : Nat) :
    (∀ c, (add_laplace_noise R df column scale rs g).1 = .error (.nonNumeric c) ↔
      (column ∈ df.cols ∧ isNumericCol df column = false ∧ c = column)) ∧
    (column ∈ df.cols → isNumericCol df column = true →
      (∀ r ∈ df.rows, Row.getV r column ≠ Val.na) →
      (add_laplace_noise R df column scale rs g).1 =
        .ok ⟨df.cols,
          (df.rows.zip (laplaceDraws R scale df.rows.length (seededState R rs g)).1).map
            (fun p => Row.setV p.1 column
              (Val.num ((roundHalfEven ((Row.getV p.1 column).asRat + p.2) : ℤ) : ℚ)))⟩) ∧
    (∀ (s : PyState) (ref i : Nat), i < s.heap.length →
      (add_laplace_noise_imp R s ref column scale rs).1.heap.getD i emptyTable
        = s.heap.getD i emptyTable) := by
  refine ⟨?_, ?_, ?_⟩
  · intro c
    by_cases hcol : column ∈ df.cols
    · by_cases hnum : isNumericCol df column
      · by_cases hna : df.rows.any (fun r => Row.getV r column == Val.na)
        · simp [add_laplace_noise, noiseBody, hcol, hnum, hna]
        · simp [add_laplace_noise, noiseBody, hcol, hnum, hna]
      · simp only [Bool.not_eq_true] at hnum
        simp [add_laplace_noise, noiseBody, hcol, hnum, eq_comm]
    · simp [add_laplace_noise, noiseBody, hcol]
  · intro hcol hnum hna
    have hany : df.rows.any (fun r => Row.getV r column == Val.na) = false := by
      rw [List.any_eq_false]
      intro r hr
      simpa using hna r hr
    simp [add_laplace_noise, noiseBody, hcol, hnum, hany]
  · intro s ref i hi
    exact (add_imp_frame R s ref column scale rs).1 i hi

/-- Claim C5, witness: on a one-row numeric column with value 3, seed 2 and
scale 1 under the linear sampler, the call succeeds with the noised rows. -/
theorem add_laplace_noise_spec_w :
    ("x" ∈ (⟨["x"], [[("x", Val.num 3)]]⟩ : Table).cols) ∧
    (isNumericCol ⟨["x"], [[("x", Val.num 3)]]⟩ "x" = true) ∧
    (∀ r ∈ (⟨["x"], [[("x", Val.num 3)]]⟩ : Table).rows, Row.getV r "x" ≠ Val.na) ∧
    (add_laplace_noise Rlin ⟨["x"], [[("x", Val.num 3)]]⟩ "x" 1 (some 2) 0).1 =
      .ok ⟨["x"],
        (([[("x", Val.num 3)]] : List Row).zip
            (laplaceDraws Rlin 1 1 (seededState Rlin (some 2) 0)).1).map
          (fun p => Row.setV p.1 "x"
            (Val.num ((roundHalfEven ((Row.getV p.1 "x").asRat + p.2) : ℤ) : ℚ)))⟩ :=
  ⟨by decide, by decide, by decide,
    (add_laplace_noise_spec Rlin ⟨["x"], [[("x", Val.num 3)]]⟩ "x" 1 (some 2) 0).2.1
      (by decide) (by decide) (by decide)⟩

/-- Claim C6: with a seed provided, the result of `add_laplace_noise` does
not depend on the ambient generator state at all — two invocations with
identical table, column, scale and seed return bit-identical results,
whatever happened in the process before each call, for every model of the
numpy sampler. -/
theorem add_laplace_noise_deterministic (R : NpRandom) (df : Table) (column : String)
    (scale : ℚ) (sd g g' : Nat) :
    (add_laplace_noise R df column scale (some sd) g).1
      = (add_laplace_noise R df column scale (some sd) g').1 := rfl

/-- Claim C7: the seed is installed in the PROCESS-GLOBAL numpy generator,
so it leaks into later calls: under the linear sampler model, the output of
an unseeded call differs according to whether a seeded call ran before it —
refuting the claim that the generator state is scoped to the seeded call. -/
theorem np_seed_state_leaks :
    (add_laplace_noise Rlin ⟨["x"], [[("x", Val.num 0)]]⟩ "x" 1 none
        (add_laplace_noise Rlin ⟨["x"], [[("x", Val.num 0)]]⟩ "x" 1 (some 5) 0).2).1
      ≠ (add_laplace_noise Rlin ⟨["x"], [[("x", Val.num 0)]]⟩ "x" 1 none 0).1 := by
  simp [add_laplace_noise, seededState, laplaceDraws, noiseBody, Rlin, isNumericCol,
    Row.getV, Val.isNum, Row.setV, Val.asRat, roundHalfEven]

/-- Claim C8: on a numeric column, `generalise_age` rebuckets every cell,
and the buckets are exactly the half-open ranges of the source bins — lower
bound inclusive, upper bound exclusive — with every value outside [0, 120)
(negatives included) becoming a missing cell rather than an error. -/
theorem generalise_age_buckets (df : Table) (c : String)
    (hc : c ∈ df.cols) (hn : isNumericCol df c = true) :
    (generalise_age df c).rows
        = df.rows.map (fun r => Row.setV r c (cutVal (Row.getV r c))) ∧
    (∀ v : ℚ,
      (0 ≤ v → v < 20 → cutVal (.num v) = .str "<20") ∧
      (20 ≤ v → v < 30 → cutVal (.num v) = .str "20-29") ∧
      (30 ≤ v → v < 40 → cutVal (.num v) = .str "30-39") ∧
      (40 ≤ v → v < 50 → cutVal (.num v) = .str "40-49") ∧
      (50 ≤ v → v < 60 → cutVal (.num v) = .str "50-59") ∧
      (60 ≤ v → v < 70 → cutVal (.num v) = .str "60-69") ∧
      (70 ≤ v → v < 120 → cutVal (.num v) = .str "70+") ∧
      ((v < 0 ∨ 120 ≤ v) → cutVal (.num v) = .na)) := by
  constructor
  · simp [generalise_age, hc, tryCut, hn]
  · intro v
    refine ⟨?_, ?_, ?_, ?_, ?_, ?_, ?_, ?_⟩
    · intro h1 h2
      have hb : bucketAge v = some "<20" := by
        unfold bucketAge
        rw [if_pos ⟨h1, h2⟩]
      simp [cutVal, hb]
    · intro h1 h2
      have hb : bucketAge v = some "20-29" := by
        unfold bucketAge
        rw [if_neg (by rintro ⟨hx, hy⟩; linarith), if_pos ⟨h1, h2⟩]
      simp [cutVal, hb]
    · intro h1 h2
      have hb : bucketAge v = some "30-39" := by
        unfold bucketAge
        rw [if_neg (by rintro ⟨hx, hy⟩; linarith), if_neg (by rintro ⟨hx, hy⟩; linarith),
          if_pos ⟨h1, h2⟩]
      simp [cutVal, hb]
    · intro h1 h2
      have hb : bucketAge v = some "40-49" := by
        unfold bucketAge
        rw [if_neg (by rintro ⟨hx, hy⟩; linarith), if_neg (by rintro ⟨hx, hy⟩; linarith),
          if_neg (by rintro ⟨hx, hy⟩; linarith), if_pos ⟨h1, h2⟩]
      simp [cutVal, hb]
    · intro h1 h2
      have hb : bucketAge v = some "50-59" := by
        unfold bucketAge
        rw [if_neg (by rintro ⟨hx, hy⟩; linarith), if_neg (by rintro ⟨hx, hy⟩; linarith),
          if_neg (by rintro ⟨hx, hy⟩; linarith), if_neg (by rintro ⟨hx, hy⟩; linarith),
          if_pos ⟨h1, h2⟩]
      simp [cutVal, hb]
    · intro h1 h2
      have hb : bucketAge v = some "60-69" := by
        unfold bucketAge
        rw [if_neg (by rintro ⟨hx, hy⟩; linarith), if_neg (by rintro ⟨hx, hy⟩; linarith),
          if_neg (by rintro ⟨hx, hy⟩; linarith), if_neg (by rintro ⟨hx, hy⟩; linarith),
          if_neg (by rintro ⟨hx, hy⟩; linarith), if_pos ⟨h1, h2⟩]
      simp [cutVal, hb]
    · intro h1 h2
      have hb : bucketAge v = some "70+" := by
        unfold bucketAge
        rw [if_neg (by rintro ⟨hx, hy⟩; linarith), if_neg (by rintro ⟨hx, hy⟩; linarith),
          if_neg (by rintro ⟨hx, hy⟩; linarith), if_neg (by rintro ⟨hx, hy⟩; linarith),
          if_neg (by rintro ⟨hx, hy⟩; linarith), if_neg (by rintro ⟨hx, hy⟩; linarith),
          if_pos ⟨h1, h2⟩]
      simp [cutVal, hb]
    · intro h
      have hb : bucketAge v = none := by
        unfold bucketAge
        rcases h with h | h
        · rw [if_neg (by rintro ⟨hx, hy⟩; linarith), if_neg (by rintro ⟨hx, hy⟩; linarith),
            if_neg (by rintro ⟨hx, hy⟩; linarith), if_neg (by rintro ⟨hx, hy⟩; linarith),
            if_neg (by rintro ⟨hx, hy⟩; linarith), if_neg (by rintro ⟨hx, hy⟩; linarith),
            if_neg (by rintro ⟨hx, hy⟩; linarith)]
        · rw [if_neg (by rintro ⟨hx, hy⟩; linarith), if_neg (by rintro ⟨hx, hy⟩; linarith),
            if_neg (by rintro ⟨hx, hy⟩; linarith), if_neg (by rintro ⟨hx, hy⟩; linarith),
            if_neg (by rintro ⟨hx, hy⟩; linarith), if_neg (by rintro ⟨hx, hy⟩; linarith),
            if_neg (by rintro ⟨hx, hy⟩; linarith)]
      simp [cutVal, hb]

/-- Claim C8, witness: the boundary table with ages 20, 69, 70, -5, 150 is
rebucketed cell by cell by the amended theorem at a concrete instance. -/
theorem generalise_age_buckets_w :
    ("age" ∈ (⟨["age"], [[("age", Val.num 20)], [("age", Val.num 69)], [("age", Val.num 70)],
        [("age", Val.num (-5))], [("age", Val.num 150)]]⟩ : Table).cols) ∧
    (isNumericCol ⟨["age"], [[("age", Val.num 20)], [("age", Val.num 69)], [("age", Val.num 70)],
        [("age", Val.num (-5))], [("age", Val.num 150)]]⟩ "age" = true) ∧
    (generalise_age ⟨["age"], [[("age", Val.num 20)], [("age", Val.num 69)], [("age", Val.num 70)],
        [("age", Val.num (-5))], [("age", Val.num 150)]]⟩ "age").rows
      = ([[("age", Val.num 20)], [("age", Val.num 69)], [("age", Val.num 70)],
          [("age", Val.num (-5))], [("age", Val.num 150)]] : List Row).map
          (fun r => Row.setV r "age" (cutVal (Row.getV r "age"))) :=
  ⟨by decide, by decide,
    (generalise_age_buckets ⟨["age"], [[("age", Val.num 20)], [("age", Val.num 69)],
        [("age", Val.num 70)], [("age", Val.num (-5))], [("age", Val.num 150)]]⟩ "age"
      (by decide) (by decide)).1⟩

example : generalise_age ⟨["age"], [[("age", Val.num 20)], [("age", Val.num 69)],
      [("age", Val.num 70)], [("age", Val.num (-5))], [("age", Val.num 150)]]⟩ "age"
    = ⟨["age"], [[("age", Val.str "20-29")], [("age", Val.str "60-69")],
      [("age", Val.str "70+")], [("age", Val.na)], [("age", Val.na)]]⟩ := by decide

/-- Claim C9: `generalise_age` cannot raise: an absent column is a no-op
returning the table unchanged, and a failing bucketing (non-numeric column,
which makes the inner cut raise) is swallowed, returning the table
unchanged. -/
theorem generalise_age_no_raise (df : Table) (c : String) :
    (c ∉ df.cols → generalise_age df c = df) ∧
    (isNumericCol df c = false → generalise_age df c = df) := by
  constructor
  · intro h
    simp [generalise_age, h]
  · intro h
    by_cases hc : c ∈ df.cols
    · simp [generalise_age, hc, tryCut, h]
    · simp [generalise_age, hc]

/-- Claim C9, witness: a table without an age column, and a table with a
string-valued age column, both come back unchanged. -/
theorem generalise_age_no_raise_w :
    ("age" ∉ (⟨["x"], [[("x", Val.num 1)]]⟩ : Table).cols) ∧
    generalise_age ⟨["x"], [[("x", Val.num 1)]]⟩ "age" = ⟨["x"], [[("x", Val.num 1)]]⟩ ∧
    (isNumericCol ⟨["age"], [[("age", Val.str "old")]]⟩ "age" = false) ∧
    generalise_age ⟨["age"], [[("age", Val.str "old")]]⟩ "age"
      = ⟨["age"], [[("age", Val.str "old")]]⟩ :=
  ⟨by decide, (generalise_age_no_raise ⟨["x"], [[("x", Val.num 1)]]⟩ "age").1 (by decide),
   by decide, (generalise_age_no_raise ⟨["age"], [[("age", Val.str "old")]]⟩ "age").2 (by decide)⟩

/-- Claim C10: none of the three operations mutates or aliases its input
frames: both transforms leave every pre-existing heap cell — in particular
the source microdata frame — unchanged on success and on error, and return
a reference distinct from the input's (a fresh copy); the risk scorer
leaves the whole process state unchanged and its result is a pure function
of the two frame values. -/
theorem core_ops_no_mutation (R : NpRandom) (s : PyState) (ref : Nat) (column : String)
    (scale : ℚ) (rs : Option Nat) (c : String) (r1 r2 : Nat) (qc : List String) :
    (∀ i, i < s.heap.length →
      (add_laplace_noise_imp R s ref column scale rs).1.heap.getD i emptyTable
        = s.heap.getD i emptyTable) ∧
    (ref < s.heap.length →
      ∀ t', (add_laplace_noise_imp R s ref column scale rs).2 = .ok t' → t' ≠ ref) ∧
    (∀ i, i < s.heap.length →
      (generalise_age_imp s ref c).1.heap.getD i emptyTable = s.heap.getD i emptyTable) ∧
    (ref < s.heap.length → (generalise_age_imp s ref c).2 ≠ ref) ∧
    (calculate_risk_imp s r1 r2 qc).1 = s ∧
    (calculate_risk_imp s r1 r2 qc).2
      = calculate_risk (s.heap.getD r1 emptyTable) (s.heap.getD r2 emptyTable) qc := by
  refine ⟨(add_imp_frame R s ref column scale rs).1, ?_, (gen_imp_frame s ref c).1, ?_, rfl, rfl⟩
  · intro href t' ht
    have := (add_imp_frame R s ref column scale rs).2 t' ht
    omega
  · intro href
    rw [(gen_imp_frame s ref c).2]
    omega

/-- Claim C10, witness: on a one-cell heap, the input frame is unchanged by
both transforms and generalization returns a fresh reference. -/
theorem core_ops_no_mutation_w :
    (0 < (⟨[⟨["x"], [[("x", Val.num 1)]]⟩], 0⟩ : PyState).heap.length) ∧
    (add_laplace_noise_imp Rlin ⟨[⟨["x"], [[("x", Val.num 1)]]⟩], 0⟩ 0 "x" 1
        (some 1)).1.heap.getD 0 emptyTable
      = (⟨[⟨["x"], [[("x", Val.num 1)]]⟩], 0⟩ : PyState).heap.getD 0 emptyTable ∧
    (generalise_age_imp ⟨[⟨["x"], [[("x", Val.num 1)]]⟩], 0⟩ 0 "age").1.heap.getD 0 emptyTable
      = (⟨[⟨["x"], [[("x", Val.num 1)]]⟩], 0⟩ : PyState).heap.getD 0 emptyTable ∧
    (generalise_age_imp ⟨[⟨["x"], [[("x", Val.num 1)]]⟩], 0⟩ 0 "age").2 ≠ 0 :=
  ⟨by decide,
   (core_ops_no_mutation Rlin ⟨[⟨["x"], [[("x", Val.num 1)]]⟩], 0⟩ 0 "x" 1 (some 1) "age"
      0 0 []).1 0 (by decide),
   (core_ops_no_mutation Rlin ⟨[⟨["x"], [[("x", Val.num 1)]]⟩], 0⟩ 0 "x" 1 (some 1) "age"
      0 0 []).2.2.1 0 (by decide),
   (core_ops_no_mutation Rlin ⟨[⟨["x"], [[("x", Val.num 1)]]⟩], 0⟩ 0 "x" 1 (some 1) "age"
      0 0 []).2.2.2.1 (by decide)⟩
